import Mathlib

/-!
Verification of the DeliverEase standalone widget script (the script block
produced by `generateStandaloneWidget` in `src/ui/src/components/ManualAddressForm.tsx`).

The widget's client-side orchestration logic is embedded shallowly:
- the global mutable state (phone number variable, the DOM input, the loading
  flag, the submit button's disabled flag) becomes a `WidgetState` record;
- DOM/side effects (postMessage, toasts, the manual-entry modal, console
  output) become an explicit `Effect` list;
- the settled outcome of the timeout-guarded fetch becomes a `LookupResult`
  value (HTTP status plus a JSON parse result, or a rejection message);
- `callWithTimeout`'s race between the network promise and the timer is
  modelled as a two-event machine ordered by settle time.
-/

namespace DeliverEase

/-- Character class of the regexes in the script: `[0-9]` (same set as `\d`
without the unicode flag). Used by the sanitizer `replace(/[^0-9]/g, '')`
and by `validatePhoneNumber`. -/
def isDigitChar (c : Char) : Bool :=
  decide ('0' ≤ c) && decide (c ≤ '9')

/-- Embedding of `value.replace(/[^0-9]/g, '')`: keep exactly the decimal
digits of the input, in order. Applied on every keystroke
(`handlePhoneChange`) and in the paste listener. -/
def sanitize (s : String) : String :=
  ⟨s.data.filter isDigitChar⟩

/-- Embedding of `validatePhoneNumber`: `/^\d{8}$/.test(number)`. Without
the multiline flag, `^`/`$` anchor at the ends of the whole string, so the
test holds exactly when the string is eight characters of the class `\d`. -/
def validatePhoneNumber (number : String) : Bool :=
  number.data.length == 8 && number.data.all isDigitChar

/-- The script's mutable state: the `phoneNumber` variable, the phone input
element's `value` and `disabled` properties, the `isLoading` flag, the check
button's `disabled` property, the error message's visibility, and (for the
concurrency model) the number of lookup requests currently in flight. -/
structure WidgetState where
  phoneNumber : String
  inputValue : String
  isLoading : Bool
  buttonDisabled : Bool
  inputDisabled : Bool
  errorVisible : Bool
  inFlight : Nat
deriving DecidableEq

/-- Embedding of `handlePhoneChange(value)`: sanitize, store, write the
sanitized value back to the field when it differs, toggle the validation
error, and recompute the button's disabled flag. -/
def handlePhoneChange (value : String) (st : WidgetState) : WidgetState :=
  let sanitized := sanitize value
  let st1 := { st with phoneNumber := sanitized }
  let st2 := if st1.inputValue ≠ sanitized then { st1 with inputValue := sanitized } else st1
  let isValid := validatePhoneNumber sanitized
  let hasValue := decide (sanitized.length > 0)
  { st2 with
      errorVisible := hasValue && !isValid
      buttonDisabled := !isValid || st2.isLoading }

/-- Embedding of `setLoading(loading)`: set the flag, and disable the button
and the input while loading; on completion re-enable the input and set the
button's disabled flag from the stored phone number's validity. -/
def setLoading (loading : Bool) (st : WidgetState) : WidgetState :=
  if loading then
    { st with isLoading := true, buttonDisabled := true, inputDisabled := true }
  else
    { st with
        isLoading := false
        buttonDisabled := !(validatePhoneNumber st.phoneNumber)
        inputDisabled := false }

/-- Embedding of the paste listener: after the browser inserts the pasted
text, read the field value, sanitize it, and only when that changes
something write it back and run `handlePhoneChange` on the sanitized text. -/
def pasteStep (value : String) (st : WidgetState) : WidgetState :=
  let sanitized := sanitize value
  if value ≠ sanitized then
    handlePhoneChange sanitized { st with inputValue := sanitized }
  else st

/-- Initial state of the script: empty phone number, check button disabled
(`document.getElementById('checkButton').disabled = true`). -/
def initState : WidgetState :=
  { phoneNumber := ""
    inputValue := ""
    isLoading := false
    buttonDisabled := true
    inputDisabled := false
    errorVisible := false
    inFlight := 0 }

/-- One translation catalog of `generateStandaloneWidget` (the `TRANSLATIONS`
object injected into the script). -/
structure Translations where
  check : String
  phoneInputHelper : String
  phoneNumberPlaceholder : String
  phoneValidationError : String
  addressFound : String
  timeoutError : String
  lookupFailed : String
  manualEntryPrompt : String
  manualEntryTitle : String
  deliveryCheckFailed : String
  deliveryUnavailable : String
deriving DecidableEq

/-- The Norwegian catalog from `generateStandaloneWidget`. -/
def translationsNo : Translations :=
  { check := "Sjekk"
    phoneInputHelper := "Skriv inn ditt 8-sifrede norske telefonnummer for å finne din adresse automatisk."
    phoneNumberPlaceholder := "12345678"
    phoneValidationError := "Telefonnummeret må være 8 siffer."
    addressFound := "Adresse funnet! Oppdaterer leveringsvalg..."
    timeoutError := "Forespørselen tok for lang tid. Prøv igjen eller skriv inn adressen manuelt."
    lookupFailed := "Kunne ikke finne adresse for dette telefonnummeret."
    manualEntryPrompt := "Vennligst fyll inn adressen manuelt."
    manualEntryTitle := "Fyll inn adresse manuelt"
    deliveryCheckFailed := "Kunne ikke hente leveringsalternativer."
    deliveryUnavailable := "Ingen levering tilgjengelig for dette postnummeret." }

/-- The English catalog from `generateStandaloneWidget`. -/
def translationsEn : Translations :=
  { check := "Check"
    phoneInputHelper := "Enter your 8-digit Norwegian phone number to automatically find your address."
    phoneNumberPlaceholder := "12345678"
    phoneValidationError := "Phone number must be 8 digits."
    addressFound := "Address found! Updating delivery options..."
    timeoutError := "Request took too long. Please try again or enter the address manually."
    lookupFailed := "Could not find address for this phone number."
    manualEntryPrompt := "Please enter the address manually."
    manualEntryTitle := "Enter Address Manually"
    deliveryCheckFailed := "Failed to fetch delivery options."
    deliveryUnavailable := "No delivery available for this postal code." }

/-- The manual-entry payload built by the modal's submit listener
(`deliverease-manual-data` message body). -/
structure ManualEntryData where
  phoneNumber : String
  firstName : String
  lastName : String
  address : String
  postalCode : String
  city : String
deriving DecidableEq

/-- Messages the widget posts to the parent frame: the two `type` tags used
by the script are `deliverease-open-popup` (`openPopup` here, with the
optional `address`, `manualEntry` and `error` payload fields) and
`deliverease-manual-data` (`manualData`). `α` is the opaque `AddressData`
shape owned by the lookup endpoint. -/
inductive OutgoingMessage (α : Type) where
  | openPopup (phoneNumber : String) (address : Option α) (manualEntry : Bool)
      (error : Option String)
  | manualData (data : ManualEntryData)
deriving DecidableEq

/-- Observable side effects of the script, in program order. -/
inductive Effect (α : Type) where
  | postMessage (msg : OutgoingMessage α)
  | showToast (message : String) (isError : Bool)
  | showManualEntryPopup (errorMessage : String)
  | consoleLog (message : String)
deriving DecidableEq

instance {ε α : Type} [DecidableEq ε] [DecidableEq α] : DecidableEq (Except ε α) :=
  fun x y =>
    match x, y with
    | Except.ok a, Except.ok b =>
      if h : a = b then isTrue (by rw [h]) else isFalse fun he => h (Except.ok.inj he)
    | Except.ok _, Except.error _ => isFalse fun he => Except.noConfusion he
    | Except.error _, Except.ok _ => isFalse fun he => Except.noConfusion he
    | Except.error e, Except.error f =>
      if h : e = f then isTrue (by rw [h]) else isFalse fun he => h (Except.error.inj he)

/-- The settled outcome that `handleSubmit` observes from the
timeout-guarded fetch: a response (HTTP status, and the result of
`response.json()` — `Except.error` carries a parse rejection's message), or
a rejection of `callWithTimeout` itself with the given error message. -/
inductive LookupResult (α : Type) where
  | response (status : Nat) (body : Except String α)
  | exn (message : String)
deriving DecidableEq

/-- The browser's `Response.ok`: status in the inclusive range 200–299. -/
def responseOk (status : Nat) : Bool :=
  decide (200 ≤ status) && decide (status ≤ 299)

/-- The fixed advisory sent on HTTP 429/503 (a string literal in the script). -/
def rateLimitMessage : String :=
  "Address lookup service is temporarily busy. Please enter your address manually."

/-- The catch block's classification: `TRANSLATIONS.timeoutError` exactly
when the caught error's message is `ApiTimeoutError`, else
`TRANSLATIONS.lookupFailed`. -/
def classifyError (tr : Translations) (msg : String) : String :=
  if msg = "ApiTimeoutError" then tr.timeoutError else tr.lookupFailed

/-- The manual-entry path: post `deliverease-open-popup` with
`manualEntry: true` and the advisory to the parent when embedded, otherwise
render the local modal. -/
def manualEntryEffects (α : Type) (embedded : Bool) (phone errorMessage : String) :
    List (Effect α) :=
  if embedded then
    [Effect.postMessage (OutgoingMessage.openPopup phone none true (some errorMessage))]
  else
    [Effect.showManualEntryPopup errorMessage]

/-- Embedding of the `try`/`catch` body of `handleSubmit` after the awaited
lookup settles: classify the outcome (429/503 first, then `response.ok`,
then JSON parsing), emit the corresponding effects, and on success reset the
form (`input.value = ''`, `phoneNumber = ''`, `handlePhoneChange('')`) and
show the success toast. -/
def settleBody (α : Type) (embedded : Bool) (tr : Translations)
    (res : LookupResult α) (st : WidgetState) : WidgetState × List (Effect α) :=
  match res with
  | LookupResult.response status body =>
    if status = 429 ∨ status = 503 then
      (st, Effect.consoleLog "API rate limited or unavailable, showing manual entry"
        :: manualEntryEffects α embedded st.phoneNumber rateLimitMessage)
    else if !(responseOk status) then
      -- `throw new Error('Address lookup failed')`, caught by the catch block
      (st, Effect.consoleLog "Phone lookup error:"
        :: manualEntryEffects α embedded st.phoneNumber
            (classifyError tr "Address lookup failed"))
    else
      match body with
      | Except.error parseMsg =>
        -- `response.json()` rejected; its error is caught by the catch block
        (st, Effect.consoleLog "Phone lookup error:"
          :: manualEntryEffects α embedded st.phoneNumber (classifyError tr parseMsg))
      | Except.ok addressData =>
        let msgs : List (Effect α) :=
          if embedded then
            [Effect.postMessage
              (OutgoingMessage.openPopup st.phoneNumber (some addressData) false none)]
          else []
        let st1 := handlePhoneChange "" { st with inputValue := "" }
        (st1, msgs ++ [Effect.showToast tr.addressFound false])
  | LookupResult.exn msg =>
    (st, Effect.consoleLog "Phone lookup error:"
      :: manualEntryEffects α embedded st.phoneNumber (classifyError tr msg))

/-- Start of a submission that passed the guard: `setLoading(true)` and one
more request in flight. -/
def startLoad (st : WidgetState) : WidgetState :=
  { setLoading true st with inFlight := st.inFlight + 1 }

/-- End of a submission: run the settled body, then the `finally` clause
(`setLoading(false)`), and the request leaves the in-flight set. -/
def finishSubmit (α : Type) (embedded : Bool) (tr : Translations)
    (res : LookupResult α) (st : WidgetState) : WidgetState × List (Effect α) :=
  let r := settleBody α embedded tr res st
  ({ setLoading false r.1 with inFlight := r.1.inFlight - 1 }, r.2)

/-- Embedding of `handleSubmit` as one transaction: the guard
(`!validatePhoneNumber(phoneNumber) || isLoading`) returns with no effect;
otherwise the request runs under `setLoading(true)`, settles with `res`, and
ends with `setLoading(false)`. -/
def handleSubmit (α : Type) (embedded : Bool) (tr : Translations)
    (res : LookupResult α) (st : WidgetState) : WidgetState × List (Effect α) :=
  if !(validatePhoneNumber st.phoneNumber) || st.isLoading then (st, [])
  else finishSubmit α embedded tr res (startLoad st)

/-- Effect discriminator: a cross-frame message. -/
def isPostMessage (α : Type) : Effect α → Bool
  | Effect.postMessage _ => true
  | _ => false

/-- Effect discriminator: a local toast. -/
def isToast (α : Type) : Effect α → Bool
  | Effect.showToast _ _ => true
  | _ => false

/-- Effect discriminator: the local manual-entry modal. -/
def isModal (α : Type) : Effect α → Bool
  | Effect.showManualEntryPopup _ => true
  | _ => false

/-- A lookup outcome is a Success exactly when the response is `ok` (status
200–299) and its JSON body parses. -/
def isSuccess (α : Type) : LookupResult α → Bool
  | LookupResult.response status (Except.ok _) => responseOk status
  | _ => false

/-- JavaScript `String.prototype.split` with a single-character separator,
on character lists: splitting the empty string gives `[""]`, and adjacent
separators give empty fields. -/
def jsSplit (sep : Char) : List Char → List (List Char)
  | [] => [[]]
  | c :: cs =>
    if c = sep then [] :: jsSplit sep cs
    else
      match jsSplit sep cs with
      | [] => [[c]]
      | h :: t => (c :: h) :: t

/-- JavaScript `Array.prototype.join` with a single-character separator, on
character lists. -/
def joinChar (sep : Char) : List (List Char) → List Char
  | [] => []
  | [l] => l
  | l :: ls => l ++ sep :: joinChar sep ls

/-- JavaScript `s || ''` on a string value: the empty string is falsy. -/
def jsOrEmpty (s : String) : String :=
  if s = "" then "" else s

/-- Embedding of the manual modal's submit listener payload: the full-name
field is split on spaces, `split(' ')[0] || ''` becomes `firstName` and
`split(' ').slice(1).join(' ') || ''` becomes `lastName`; the other fields
pass through. -/
def buildManualData (phoneVal nameVal addressVal postalVal cityVal : String) :
    ManualEntryData :=
  { phoneNumber := phoneVal
    firstName := jsOrEmpty ⟨(jsSplit ' ' nameVal.data).headD []⟩
    lastName := jsOrEmpty ⟨joinChar ' ' (jsSplit ' ' nameVal.data).tail⟩
    address := addressVal
    postalCode := postalVal
    city := cityVal }

/-- The characters after the first occurrence of `sep` (empty when `sep`
does not occur). Spec-side description of the `lastName` derivation. -/
def afterFirstSep (sep : Char) (l : List Char) : List Char :=
  match l.dropWhile (fun c => !(c == sep)) with
  | [] => []
  | _ :: rest => rest

/-- A settled promise: either resolved with a value or rejected with an
error carrying a message. -/
inductive PromiseOutcome (α : Type) where
  | resolved (value : α)
  | rejected (message : String)
deriving DecidableEq

/-- State of `callWithTimeout`'s race: the settled result of
`Promise.race([promise, timeoutPromise])` (if any), whether the timer set by
`setTimeout` is still pending (`clearTimeout` makes it false), and how many
times the race has observably settled. -/
structure RaceState (α : Type) where
  settled : Option (PromiseOutcome α)
  timerActive : Bool
  settleCount : Nat
deriving DecidableEq

/-- The race just after `callWithTimeout` starts: nothing settled, the timer
pending. -/
def raceInit (α : Type) : RaceState α :=
  { settled := none, timerActive := true, settleCount := 0 }

/-- The timer's scheduled moment arrives: if it was not cleared, it fires,
rejecting the race with `new Error('ApiTimeoutError')`; a cleared timer does
nothing. (When the timer itself wins, `clearTimeout` in the catch block is a
no-op on the already-fired timer.) -/
def timerFires (α : Type) (st : RaceState α) : RaceState α :=
  if st.timerActive then
    match st.settled with
    | none =>
      { settled := some (PromiseOutcome.rejected "ApiTimeoutError")
        timerActive := false
        settleCount := st.settleCount + 1 }
    | some _ => { st with timerActive := false }
  else st

/-- The supplied promise settles with `out`: if the race is still open it
settles the race with `out` propagated unchanged and `clearTimeout` clears
the timer; if the race already settled (the timer won), the late settlement
is ignored by `Promise.race` and changes nothing. -/
def promiseSettles (α : Type) (out : PromiseOutcome α) (st : RaceState α) : RaceState α :=
  match st.settled with
  | none => { settled := some out, timerActive := false, settleCount := st.settleCount + 1 }
  | some _ => st

/-- Embedding of `callWithTimeout(promise, timeoutMs)`: the promise settles
with `out` at time `pTime`, the timer is scheduled at `timeoutMs`, and the
two events are delivered in time order by the single-threaded event loop
(simultaneous settlement cannot occur; the model delivers the timer first on
equal times). -/
def callWithTimeout (α : Type) (pTime : Nat) (out : PromiseOutcome α)
    (timeoutMs : Nat) : RaceState α :=
  if pTime < timeoutMs then
    timerFires α (promiseSettles α out (raceInit α))
  else
    promiseSettles α out (timerFires α (raceInit α))

/-- User-visible events of the widget controller: keystrokes in the phone
field, paste events, a form submission reaching `handleSubmit`, and the
settlement of an in-flight lookup request. -/
inductive WEvent (α : Type) where
  | phoneInput (raw : String)
  | paste (raw : String)
  | submitStart
  | settle (embedded : Bool) (res : LookupResult α)

/-- One event of the widget controller's event loop. `submitStart` is the
prefix of `handleSubmit` up to and including `setLoading(true)`; `settle` is
the rest of `handleSubmit` once the awaited call settles (a no-op when no
request is in flight, since nothing is awaited then). -/
def step (α : Type) (tr : Translations) (st : WidgetState) : WEvent α → WidgetState
  | WEvent.phoneInput raw => handlePhoneChange raw st
  | WEvent.paste raw => pasteStep raw st
  | WEvent.submitStart =>
    if !(validatePhoneNumber st.phoneNumber) || st.isLoading then st
    else startLoad st
  | WEvent.settle embedded res =>
    if st.inFlight = 0 then st
    else (finishSubmit α embedded tr res st).1

/-- The controller state after a sequence of events from the initial
state. -/
def run (α : Type) (tr : Translations) (evts : List (WEvent α)) : WidgetState :=
  evts.foldl (step α tr) initState

/-- Controller invariant: the submit control is disabled exactly when the
stored phone number is invalid or a request is loading, the input is
disabled exactly while loading, and the number of in-flight requests is one
while loading and zero otherwise. -/
def Inv (st : WidgetState) : Prop :=
  st.buttonDisabled = (!(validatePhoneNumber st.phoneNumber) || st.isLoading)
  ∧ st.inputDisabled = st.isLoading
  ∧ st.inFlight = (if st.isLoading then 1 else 0)

/-- A concrete state ready to submit: a valid phone number is stored and no
request is in flight. Used to instantiate the theorems below. -/
def readyState : WidgetState :=
  { phoneNumber := "12345678"
    inputValue := "12345678"
    isLoading := false
    buttonDisabled := false
    inputDisabled := false
    errorVisible := false
    inFlight := 0 }

end DeliverEase

namespace DeliverEase

/-- The regex class `[0-9]` coincides with `Char.isDigit`. -/
theorem isDigitChar_eq_isDigit (c : Char) : isDigitChar c = c.isDigit := by
  simp only [isDigitChar, Char.isDigit, ge_iff_le, Char.le_def]
  rfl

/-- C8: the sanitizer emits only decimal digits and is idempotent. -/
theorem sanitize_digits_and_idempotent :
    (∀ s : String, ∀ c ∈ (sanitize s).data, c.isDigit = true) ∧
    (∀ s : String, sanitize (sanitize s) = sanitize s) := by
  constructor
  · intro s c hc
    simp only [sanitize, List.mem_filter, isDigitChar_eq_isDigit] at hc
    exact hc.2
  · intro s
    simp only [sanitize, List.filter_filter]
    congr 1
    apply List.filter_congr
    intro c _
    cases isDigitChar c <;> simp

/-- C7: `validatePhoneNumber` holds exactly on strings of eight decimal
digits; it accepts "12345678" and rejects "1234567", "123456789" and
"1234567a". -/
theorem validatePhoneNumber_spec :
    (∀ s : String,
      validatePhoneNumber s = true ↔
        (s.data.length = 8 ∧ ∀ c ∈ s.data, c.isDigit = true)) ∧
    validatePhoneNumber "12345678" = true ∧
    validatePhoneNumber "1234567" = false ∧
    validatePhoneNumber "123456789" = false ∧
    validatePhoneNumber "1234567a" = false := by
  refine ⟨?_, by decide, by decide, by decide, by decide⟩
  intro s
  simp only [validatePhoneNumber, Bool.and_eq_true, beq_iff_eq, List.all_eq_true,
    isDigitChar_eq_isDigit]

/-- C1 (counterexample): in embedded mode (`window.parent !== window`) a
submission with a Success outcome still renders the local success toast
(`showToast(TRANSLATIONS.addressFound)` runs unconditionally), so "no local
toast/modal is rendered for any outcome" fails at this input. -/
theorem embedded_success_renders_local_toast :
    Effect.showToast translationsEn.addressFound false ∈
      (handleSubmit String true translationsEn
        (LookupResult.response 200 (Except.ok "Storgata 1")) readyState).2 := by
  decide

/-- C1 (amended): in embedded mode every guarded submission makes exactly
one `postMessage` whose `deliverease-open-popup` payload matches the outcome
(`address` present iff Success, `manualEntry`/`error` present iff not), and
never renders the local modal; no local toast is rendered for RateLimited,
TimedOut or GenericFailure, but a Success outcome additionally shows the
local success toast. -/
theorem embedded_messaging_per_outcome (α : Type) (tr : Translations)
    (st : WidgetState) (res : LookupResult α)
    (hv : validatePhoneNumber st.phoneNumber = true)
    (hl : st.isLoading = false) :
    (handleSubmit α true tr res st).2.countP (isPostMessage α) = 1
    ∧ (handleSubmit α true tr res st).2.countP (isModal α) = 0
    ∧ (handleSubmit α true tr res st).2.countP (isToast α)
        = (if isSuccess α res then 1 else 0)
    ∧ (∀ pn addr me err,
        Effect.postMessage (OutgoingMessage.openPopup pn addr me err)
          ∈ (handleSubmit α true tr res st).2 →
        pn = st.phoneNumber ∧ me = !(isSuccess α res)
          ∧ (addr.isSome = isSuccess α res)
          ∧ (err.isSome = !(isSuccess α res)))
    ∧ (∀ d, Effect.postMessage (OutgoingMessage.manualData d)
        ∉ (handleSubmit α true tr res st).2) := by
  simp only [handleSubmit, hv, hl, Bool.not_true, Bool.false_or, ite_false]
  match res with
  | LookupResult.response status (Except.ok a) =>
    by_cases hs : status = 429 ∨ status = 503
    · have hok : responseOk status = false := by
        rcases hs with h | h <;> subst h <;> decide
      simp [finishSubmit, settleBody, if_pos hs, startLoad, setLoading, manualEntryEffects,
        isSuccess, hok, isPostMessage, isModal, isToast, List.countP_cons, List.countP_nil]
      rintro pn addr err rfl rfl rfl
      simp
    · by_cases hok : responseOk status = true
      · simp [finishSubmit, settleBody, if_neg hs, hok, startLoad, setLoading,
          isSuccess, isPostMessage, isModal, isToast, List.countP_cons, List.countP_nil,
          handlePhoneChange, sanitize]
        rintro pn addr err rfl rfl rfl
        simp
      · simp only [Bool.not_eq_true] at hok
        simp [finishSubmit, settleBody, if_neg hs, hok, startLoad, setLoading,
          manualEntryEffects, isSuccess, isPostMessage, isModal, isToast,
          List.countP_cons, List.countP_nil]
        rintro pn addr err rfl rfl rfl
        simp
  | LookupResult.response status (Except.error e) =>
    by_cases hs : status = 429 ∨ status = 503
    · simp [finishSubmit, settleBody, if_pos hs, startLoad, setLoading, manualEntryEffects,
        isSuccess, isPostMessage, isModal, isToast, List.countP_cons, List.countP_nil]
      rintro pn addr err rfl rfl rfl
      simp
    · by_cases hok : responseOk status = true
      · simp [finishSubmit, settleBody, if_neg hs, hok, startLoad, setLoading,
          manualEntryEffects, isSuccess, isPostMessage, isModal, isToast,
          List.countP_cons, List.countP_nil]
        rintro pn addr err rfl rfl rfl
        simp
      · simp only [Bool.not_eq_true] at hok
        simp [finishSubmit, settleBody, if_neg hs, hok, startLoad, setLoading,
          manualEntryEffects, isSuccess, isPostMessage, isModal, isToast,
          List.countP_cons, List.countP_nil]
        rintro pn addr err rfl rfl rfl
        simp
  | LookupResult.exn msg =>
    simp [finishSubmit, settleBody, startLoad, setLoading, manualEntryEffects,
      isSuccess, isPostMessage, isModal, isToast, List.countP_cons, List.countP_nil]
    rintro pn addr err rfl rfl rfl
    simp

/-- C1 witness: the amended theorem applied to a concrete embedded
GenericFailure submission. -/
theorem embedded_messaging_per_outcome_witness :
    (handleSubmit Nat true translationsNo (LookupResult.exn "boom") readyState).2.countP
        (isPostMessage Nat) = 1
    ∧ (handleSubmit Nat true translationsNo (LookupResult.exn "boom") readyState).2.countP
        (isModal Nat) = 0
    ∧ (handleSubmit Nat true translationsNo (LookupResult.exn "boom") readyState).2.countP
        (isToast Nat)
        = (if isSuccess Nat (LookupResult.exn "boom") then 1 else 0)
    ∧ (∀ pn addr me err,
        Effect.postMessage (OutgoingMessage.openPopup pn addr me err)
          ∈ (handleSubmit Nat true translationsNo (LookupResult.exn "boom") readyState).2 →
        pn = readyState.phoneNumber ∧ me = !(isSuccess Nat (LookupResult.exn "boom"))
          ∧ (addr.isSome = isSuccess Nat (LookupResult.exn "boom"))
          ∧ (err.isSome = !(isSuccess Nat (LookupResult.exn "boom"))))
    ∧ (∀ d, Effect.postMessage (OutgoingMessage.manualData d)
        ∉ (handleSubmit Nat true translationsNo (LookupResult.exn "boom") readyState).2) :=
  embedded_messaging_per_outcome Nat translationsNo readyState (LookupResult.exn "boom")
    (by decide) (by decide)

/-- C2: a response with HTTP status 429 or 503 is classified RateLimited:
the effects are exactly the console note followed by the manual-entry path
(postMessage when embedded, local modal otherwise) carrying the fixed
rate-limit advisory — in particular no throw and no generic-failure
advisory — and the stored phone number is unchanged. -/
theorem rate_limited_manual_entry (α : Type) (embedded : Bool) (tr : Translations)
    (st : WidgetState) (status : Nat) (body : Except String α)
    (hv : validatePhoneNumber st.phoneNumber = true)
    (hl : st.isLoading = false)
    (hs : status = 429 ∨ status = 503) :
    (handleSubmit α embedded tr (LookupResult.response status body) st).2
      = Effect.consoleLog "API rate limited or unavailable, showing manual entry"
          :: manualEntryEffects α embedded st.phoneNumber rateLimitMessage
    ∧ (handleSubmit α embedded tr (LookupResult.response status body) st).1.phoneNumber
        = st.phoneNumber := by
  simp only [handleSubmit, hv, hl, Bool.not_true, Bool.false_or, ite_false]
  simp only [finishSubmit, settleBody, if_pos hs, startLoad, setLoading, if_true, if_false]
  simp

/-- C2 witness: the theorem applied to a concrete 429 response while
embedded. -/
theorem rate_limited_manual_entry_witness :
    (handleSubmit Nat true translationsEn (LookupResult.response 429 (Except.ok 0))
        readyState).2
      = Effect.consoleLog "API rate limited or unavailable, showing manual entry"
          :: manualEntryEffects Nat true readyState.phoneNumber rateLimitMessage
    ∧ (handleSubmit Nat true translationsEn (LookupResult.response 429 (Except.ok 0))
        readyState).1.phoneNumber = readyState.phoneNumber :=
  rate_limited_manual_entry Nat true translationsEn readyState 429 (Except.ok 0)
    (by decide) (by decide) (Or.inl rfl)

/-- C3 (counterexample): `callWithTimeout` propagates a winning call's
rejection unchanged, so a call that rejects with message `ApiTimeoutError`
at time 0 (before the 8000ms timer) makes `callWithTimeout` reject with
message `ApiTimeoutError` although the timer did not settle first — the
claimed "if and only if" fails at this input. -/
theorem callWithTimeout_iff_fails :
    ¬ ((callWithTimeout Nat 0 (PromiseOutcome.rejected "ApiTimeoutError") 8000).settled
        = some (PromiseOutcome.rejected "ApiTimeoutError") ↔ 8000 < 0) := by
  decide

/-- C3 (amended): for settle times that differ and a call that does not
itself reject with message `ApiTimeoutError`, `callWithTimeout` rejects with
`ApiTimeoutError` iff the timer settles before the call; a call that settles
first has its outcome propagated unchanged and its timer cleared; the race
settles exactly once, and the losing side's later event (a late promise
settlement, or the cleared timer's moment) leaves the state unchanged. -/
theorem callWithTimeout_race_spec (α : Type) (pTime timeoutMs : Nat)
    (out : PromiseOutcome α)
    (hne : pTime ≠ timeoutMs)
    (hmsg : out ≠ PromiseOutcome.rejected "ApiTimeoutError") :
    ((callWithTimeout α pTime out timeoutMs).settled
        = some (PromiseOutcome.rejected "ApiTimeoutError") ↔ timeoutMs < pTime)
    ∧ (pTime < timeoutMs →
        (callWithTimeout α pTime out timeoutMs).settled = some out)
    ∧ (callWithTimeout α pTime out timeoutMs).timerActive = false
    ∧ (callWithTimeout α pTime out timeoutMs).settleCount = 1
    ∧ promiseSettles α out (callWithTimeout α pTime out timeoutMs)
        = callWithTimeout α pTime out timeoutMs
    ∧ timerFires α (callWithTimeout α pTime out timeoutMs)
        = callWithTimeout α pTime out timeoutMs := by
  by_cases h : pTime < timeoutMs
  · have hnt : ¬ timeoutMs < pTime := by omega
    simp [callWithTimeout, h, promiseSettles, timerFires, raceInit, hnt]
    exact fun hc => hmsg hc
  · have h2 : timeoutMs < pTime := by omega
    simp [callWithTimeout, h, promiseSettles, timerFires, raceInit, h2]

/-- C3 witness: the spec's example — a call resolving at 10000ms against an
8000ms timeout rejects with the timeout classification, and the late
resolution at 10000ms has no further observable effect. -/
theorem callWithTimeout_race_spec_witness :
    ((callWithTimeout Nat 10000 (PromiseOutcome.resolved 42) 8000).settled
        = some (PromiseOutcome.rejected "ApiTimeoutError") ↔ 8000 < 10000)
    ∧ (10000 < 8000 →
        (callWithTimeout Nat 10000 (PromiseOutcome.resolved 42) 8000).settled
          = some (PromiseOutcome.resolved 42))
    ∧ (callWithTimeout Nat 10000 (PromiseOutcome.resolved 42) 8000).timerActive = false
    ∧ (callWithTimeout Nat 10000 (PromiseOutcome.resolved 42) 8000).settleCount = 1
    ∧ promiseSettles Nat (PromiseOutcome.resolved 42)
        (callWithTimeout Nat 10000 (PromiseOutcome.resolved 42) 8000)
        = callWithTimeout Nat 10000 (PromiseOutcome.resolved 42) 8000
    ∧ timerFires Nat (callWithTimeout Nat 10000 (PromiseOutcome.resolved 42) 8000)
        = callWithTimeout Nat 10000 (PromiseOutcome.resolved 42) 8000 :=
  callWithTimeout_race_spec Nat 10000 8000 (PromiseOutcome.resolved 42)
    (by decide) (by decide)

/-- C4: a submission that ends in an exception classifies it TimedOut
exactly when the message is `ApiTimeoutError` (advisory
`TRANSLATIONS.timeoutError`) and GenericFailure otherwise (advisory
`TRANSLATIONS.lookupFailed`); both route to the manual-entry path, and for
catalogs whose two advisories differ the classification texts are
distinct. -/
theorem exception_classification (α : Type) (embedded : Bool) (tr : Translations)
    (st : WidgetState) (msg : String)
    (hv : validatePhoneNumber st.phoneNumber = true)
    (hl : st.isLoading = false)
    (hd : tr.timeoutError ≠ tr.lookupFailed) :
    (handleSubmit α embedded tr (LookupResult.exn msg) st).2
      = Effect.consoleLog "Phone lookup error:"
          :: manualEntryEffects α embedded st.phoneNumber (classifyError tr msg)
    ∧ (classifyError tr msg = tr.timeoutError ↔ msg = "ApiTimeoutError")
    ∧ (classifyError tr msg = tr.lookupFailed ↔ msg ≠ "ApiTimeoutError") := by
  refine ⟨?_, ?_, ?_⟩
  · simp only [handleSubmit, hv, hl, Bool.not_true, Bool.false_or, ite_false]
    simp only [finishSubmit, settleBody, startLoad, setLoading, if_true]
    simp
  · unfold classifyError
    split
    · simp_all
    · simp_all
      exact fun h => hd h.symm
  · unfold classifyError
    split
    · simp_all
    · simp_all

/-- C4 witness: the theorem applied to a concrete standalone timeout
rejection, with the English catalog (whose two advisories differ). -/
theorem exception_classification_witness :
    (handleSubmit Nat false translationsEn (LookupResult.exn "ApiTimeoutError")
        readyState).2
      = Effect.consoleLog "Phone lookup error:"
          :: manualEntryEffects Nat false readyState.phoneNumber
              (classifyError translationsEn "ApiTimeoutError")
    ∧ (classifyError translationsEn "ApiTimeoutError" = translationsEn.timeoutError
        ↔ "ApiTimeoutError" = "ApiTimeoutError")
    ∧ (classifyError translationsEn "ApiTimeoutError" = translationsEn.lookupFailed
        ↔ "ApiTimeoutError" ≠ "ApiTimeoutError") :=
  exception_classification Nat false translationsEn readyState "ApiTimeoutError"
    (by decide) (by decide) (by decide)

/-- C5: a response with a success-range status and a parseable JSON body
yields a Success outcome; when embedded, the effects are exactly one
`deliverease-open-popup` message whose `address` field is the parsed body
unchanged, followed by the success toast. -/
theorem success_payload_unchanged (α : Type) (tr : Translations) (st : WidgetState)
    (status : Nat) (a : α)
    (hv : validatePhoneNumber st.phoneNumber = true)
    (hl : st.isLoading = false)
    (hok : responseOk status = true) :
    (handleSubmit α true tr (LookupResult.response status (Except.ok a)) st).2
      = [Effect.postMessage (OutgoingMessage.openPopup st.phoneNumber (some a) false none),
         Effect.showToast tr.addressFound false]
    ∧ isSuccess α (LookupResult.response status (Except.ok a)) = true := by
  have h299 : status ≤ 299 := by
    simp only [responseOk, Bool.and_eq_true, decide_eq_true_eq] at hok
    exact hok.2
  have hs : ¬ (status = 429 ∨ status = 503) := by omega
  refine ⟨?_, by simp [isSuccess, hok]⟩
  simp only [handleSubmit, hv, hl, Bool.not_true, Bool.false_or, ite_false]
  simp only [finishSubmit, settleBody, if_neg hs, hok, Bool.not_true, ite_false, startLoad,
    setLoading, if_true]
  simp

/-- C5 witness: the theorem applied to a concrete HTTP 200 response with the
example body. -/
theorem success_payload_unchanged_witness :
    (handleSubmit String true translationsNo
        (LookupResult.response 200 (Except.ok "Storgata 1, 0155 Oslo")) readyState).2
      = [Effect.postMessage (OutgoingMessage.openPopup readyState.phoneNumber
            (some "Storgata 1, 0155 Oslo") false none),
         Effect.showToast translationsNo.addressFound false]
    ∧ isSuccess String (LookupResult.response 200 (Except.ok "Storgata 1, 0155 Oslo"))
        = true :=
  success_payload_unchanged String translationsNo readyState 200 "Storgata 1, 0155 Oslo"
    (by decide) (by decide) (by decide)

/-- Splitting never produces an empty list of fields. -/
theorem jsSplit_ne_nil (sep : Char) (l : List Char) : jsSplit sep l ≠ [] := by
  induction l with
  | nil => simp [jsSplit]
  | cons c cs ih =>
    simp only [jsSplit]
    split
    · simp
    · match h : jsSplit sep cs with
      | [] => simp
      | x :: xs => simp

/-- The first field of the split is the prefix before the first separator. -/
theorem jsSplit_headD (sep : Char) (l : List Char) :
    (jsSplit sep l).headD [] = l.takeWhile (fun c => !(c == sep)) := by
  induction l with
  | nil => simp [jsSplit]
  | cons c cs ih =>
    simp only [jsSplit, List.takeWhile]
    by_cases hc : c = sep
    · simp [hc]
    · simp only [if_neg hc]
      match h : jsSplit sep cs with
      | [] => exact absurd h (jsSplit_ne_nil sep cs)
      | x :: xs =>
        rw [h] at ih
        simp only [List.headD] at ih
        have hb : (c == sep) = false := by simp [hc]
        simp [hb, ih]

/-- Splitting and rejoining on the same separator is the identity. -/
theorem joinChar_jsSplit (sep : Char) (l : List Char) :
    joinChar sep (jsSplit sep l) = l := by
  induction l with
  | nil => simp [jsSplit, joinChar]
  | cons c cs ih =>
    simp only [jsSplit]
    by_cases hc : c = sep
    · simp only [if_pos hc]
      match h : jsSplit sep cs with
      | [] => exact absurd h (jsSplit_ne_nil sep cs)
      | x :: xs =>
        rw [h] at ih
        simp [joinChar, ih, hc]
    · simp only [if_neg hc]
      match h : jsSplit sep cs with
      | [] => exact absurd h (jsSplit_ne_nil sep cs)
      | x :: xs =>
        rw [h] at ih
        match xs with
        | [] => simp [joinChar] at ih ⊢; simp [ih]
        | y :: ys =>
          simp only [joinChar] at ih ⊢
          simp [ih]

/-- Rejoining every field but the first yields the suffix after the first
separator. -/
theorem joinChar_jsSplit_tail (sep : Char) (l : List Char) :
    joinChar sep (jsSplit sep l).tail = afterFirstSep sep l := by
  induction l with
  | nil => simp [jsSplit, joinChar, afterFirstSep]
  | cons c cs ih =>
    simp only [jsSplit, afterFirstSep, List.dropWhile]
    by_cases hc : c = sep
    · simp [hc, joinChar_jsSplit]
    · simp only [if_neg hc]
      match h : jsSplit sep cs with
      | [] => exact absurd h (jsSplit_ne_nil sep cs)
      | x :: xs =>
        rw [h] at ih
        simp only [afterFirstSep, List.tail] at ih
        have hb : (c == sep) = false := by simp [hc]
        simp [hb, ih]

/-- C6: the submitted manual-entry data has `firstName` equal to the part of
the full name before the first space (the whole string when there is no
space) and `lastName` equal to the remainder after the first space (empty
when there is no space); in particular "Ola Nordmann" gives ("Ola",
"Nordmann") and "Ola" gives ("Ola", ""). -/
theorem manual_name_split :
    (∀ nameVal phoneVal addressVal postalVal cityVal : String,
      (buildManualData phoneVal nameVal addressVal postalVal cityVal).firstName
          = ⟨nameVal.data.takeWhile (fun c => !(c == ' '))⟩
      ∧ (buildManualData phoneVal nameVal addressVal postalVal cityVal).lastName
          = ⟨afterFirstSep ' ' nameVal.data⟩)
    ∧ (buildManualData "12345678" "Ola Nordmann" "Storgata 1" "0155" "Oslo").firstName
        = "Ola"
    ∧ (buildManualData "12345678" "Ola Nordmann" "Storgata 1" "0155" "Oslo").lastName
        = "Nordmann"
    ∧ (buildManualData "12345678" "Ola" "Storgata 1" "0155" "Oslo").firstName = "Ola"
    ∧ (buildManualData "12345678" "Ola" "Storgata 1" "0155" "Oslo").lastName = "" := by
  refine ⟨?_, by decide, by decide, by decide, by decide⟩
  intro nameVal phoneVal addressVal postalVal cityVal
  have hj : ∀ s : String, jsOrEmpty s = s := by
    intro s
    unfold jsOrEmpty
    split <;> simp_all
  constructor
  · simp only [buildManualData, hj]
    congr 1
    exact jsSplit_headD ' ' nameVal.data
  · simp only [buildManualData, hj]
    congr 1
    exact joinChar_jsSplit_tail ' ' nameVal.data

/-- C10: a submission ending in Success resets the stored phone number and
the input field to the empty string and leaves the submit control disabled
(the empty string is not a valid phone number); the other outcomes leave the
entered phone number unchanged. -/
theorem phone_reset_on_success (α : Type) (embedded : Bool) (tr : Translations)
    (st : WidgetState) (res : LookupResult α)
    (hv : validatePhoneNumber st.phoneNumber = true)
    (hl : st.isLoading = false) :
    (isSuccess α res = true →
      (handleSubmit α embedded tr res st).1.phoneNumber = ""
      ∧ (handleSubmit α embedded tr res st).1.inputValue = ""
      ∧ (handleSubmit α embedded tr res st).1.buttonDisabled = true)
    ∧ (isSuccess α res = false →
      (handleSubmit α embedded tr res st).1.phoneNumber = st.phoneNumber)
    ∧ validatePhoneNumber "" = false := by
  refine ⟨?_, ?_, by decide⟩
  · intro hsucc
    match res with
    | LookupResult.response status (Except.ok a) =>
      simp only [isSuccess] at hsucc
      have h299 : status ≤ 299 := by
        simp only [responseOk, Bool.and_eq_true, decide_eq_true_eq] at hsucc
        exact hsucc.2
      have hs : ¬ (status = 429 ∨ status = 503) := by omega
      simp only [handleSubmit, hv, hl, Bool.not_true, Bool.false_or, ite_false]
      simp only [finishSubmit, settleBody, if_neg hs, hsucc, Bool.not_true, ite_false,
        startLoad, setLoading, handlePhoneChange, sanitize]
      simp [validatePhoneNumber]
  · intro hfail
    match res with
    | LookupResult.response status (Except.ok a) =>
      simp only [isSuccess] at hfail
      simp only [handleSubmit, hv, hl, Bool.not_true, Bool.false_or, ite_false]
      by_cases hs : status = 429 ∨ status = 503
      · simp [finishSubmit, settleBody, if_pos hs, startLoad, setLoading]
      · simp [finishSubmit, settleBody, if_neg hs, hfail, startLoad, setLoading]
    | LookupResult.response status (Except.error e) =>
      simp only [handleSubmit, hv, hl, Bool.not_true, Bool.false_or, ite_false]
      by_cases hs : status = 429 ∨ status = 503
      · simp [finishSubmit, settleBody, if_pos hs, startLoad, setLoading]
      · by_cases hok : responseOk status
        · simp [finishSubmit, settleBody, if_neg hs, hok, startLoad, setLoading]
        · simp [finishSubmit, settleBody, if_neg hs, hok, startLoad, setLoading]
    | LookupResult.exn msg =>
      simp only [handleSubmit, hv, hl, Bool.not_true, Bool.false_or, ite_false]
      simp [finishSubmit, settleBody, startLoad, setLoading]

/-- The settled body of a submission does not change the number of
in-flight requests. -/
theorem settleBody_inFlight (α : Type) (embedded : Bool) (tr : Translations)
    (res : LookupResult α) (st : WidgetState) :
    (settleBody α embedded tr res st).1.inFlight = st.inFlight := by
  match res with
  | LookupResult.response status body =>
    simp only [settleBody]
    split
    · rfl
    · split
      · rfl
      · match body with
        | Except.error m => rfl
        | Except.ok a =>
          simp only [handlePhoneChange]
          split <;> rfl
  | LookupResult.exn m => rfl

/-- Every controller event preserves the invariant `Inv`. -/
theorem step_preserves_Inv (α : Type) (tr : Translations) (st : WidgetState)
    (e : WEvent α) (h : Inv st) : Inv (step α tr st e) := by
  obtain ⟨h1, h2, h3⟩ := h
  cases e with
  | phoneInput raw =>
    simp only [step, handlePhoneChange]
    split <;> simp [Inv, h2, h3]
  | paste raw =>
    simp only [step, pasteStep]
    split
    · simp only [handlePhoneChange]
      split <;> simp [Inv, h2, h3]
    · exact ⟨h1, h2, h3⟩
  | submitStart =>
    simp only [step]
    split
    · exact ⟨h1, h2, h3⟩
    · rename_i hg
      simp only [Bool.or_eq_true, Bool.not_eq_true] at hg
      push_neg at hg
      have hload : st.isLoading = false := by
        cases hb : st.isLoading
        · rfl
        · exact absurd hb hg.2
      simp [Inv, startLoad, setLoading, h3, hload]
  | settle embedded res =>
    simp only [step]
    split
    · exact ⟨h1, h2, h3⟩
    · rename_i hnz
      have hload : st.isLoading = true := by
        by_contra hc
        simp only [Bool.not_eq_true] at hc
        rw [hc] at h3
        simp at h3
        exact hnz h3
      have hone : st.inFlight = 1 := by rw [h3, hload]; rfl
      simp [Inv, finishSubmit, setLoading, settleBody_inFlight, hone]

/-- The invariant holds in every reachable controller state. -/
theorem run_Inv (α : Type) (tr : Translations) (evts : List (WEvent α)) :
    Inv (run α tr evts) := by
  have hgen : ∀ (l : List (WEvent α)) (st : WidgetState),
      Inv st → Inv (l.foldl (step α tr) st) := by
    intro l
    induction l with
    | nil => intro st h; exact h
    | cons e es ih =>
      intro st h
      exact ih (step α tr st e) (step_preserves_Inv α tr st e h)
  exact hgen evts initState (by simp [Inv, initState, validatePhoneNumber])

/-- C9: in every reachable controller state at most one lookup request is in
flight; while a request is loading the submit control is disabled and a
submit event changes nothing (no new request starts), and when no request is
loading the submit control is enabled exactly when the stored phone number
is valid. -/
theorem single_flight_invariant (α : Type) (tr : Translations)
    (evts : List (WEvent α)) :
    (run α tr evts).inFlight ≤ 1
    ∧ ((run α tr evts).isLoading = true →
        (run α tr evts).buttonDisabled = true
        ∧ step α tr (run α tr evts) WEvent.submitStart = run α tr evts)
    ∧ ((run α tr evts).isLoading = false →
        ((run α tr evts).buttonDisabled = false
          ↔ validatePhoneNumber (run α tr evts).phoneNumber = true)) := by
  obtain ⟨h1, h2, h3⟩ := run_Inv α tr evts
  refine ⟨?_, ?_, ?_⟩
  · rw [h3]
    split <;> omega
  · intro hload
    refine ⟨?_, ?_⟩
    · rw [h1, hload]
      simp
    · simp [step, hload]
  · intro hload
    rw [h1, hload]
    cases hval : validatePhoneNumber (run α tr evts).phoneNumber <;> simp

/-- C10 witness: the theorem applied to a concrete Success submission. -/
theorem phone_reset_on_success_witness :
    (isSuccess Nat (LookupResult.response 200 (Except.ok 7)) = true →
      (handleSubmit Nat true translationsEn (LookupResult.response 200 (Except.ok 7))
          readyState).1.phoneNumber = ""
      ∧ (handleSubmit Nat true translationsEn (LookupResult.response 200 (Except.ok 7))
          readyState).1.inputValue = ""
      ∧ (handleSubmit Nat true translationsEn (LookupResult.response 200 (Except.ok 7))
          readyState).1.buttonDisabled = true)
    ∧ (isSuccess Nat (LookupResult.response 200 (Except.ok 7)) = false →
      (handleSubmit Nat true translationsEn (LookupResult.response 200 (Except.ok 7))
          readyState).1.phoneNumber = readyState.phoneNumber)
    ∧ validatePhoneNumber "" = false :=
  phone_reset_on_success Nat true translationsEn readyState
    (LookupResult.response 200 (Except.ok 7)) (by decide) (by decide)

end DeliverEase
